import Mathlib

/-!
Verification of the rate-limiting subsystem of `src/http/rate_limit.rs`
(client-side admission control for Polymarket APIs).

The Rust module is shallowly embedded below:

- Rust `&str` values (hosts, paths, HTTP methods) are embedded as `List Char`;
  `str::starts_with` becomes `startsWith` (via `List.isPrefixOf`) and
  `str::contains` becomes `containsSub` (substring containment).
- `governor::Quota` is embedded from the governor crate's documented API:
  a quota is a pair of a maximum burst size and a replenish interval
  (one cell replenished per interval).  `Quota::with_period(d)` builds a
  quota replenishing one cell per `d` (failing on a zero period) with a
  burst of 1, `allow_burst` changes only the burst size, and
  `Quota::per_minute(n)` replenishes one cell per `60s / n` with burst `n`.
  Durations are carried as nanosecond counts (`Nat`).
- A registry `Limiter` (`Arc<RateLimiter<...>>` built by
  `RateLimiter::direct(quota)`) is embedded as the quota it was built from:
  the claims below concern which limiters exist and in which order they are
  consulted, not the token accounting internal to the governor crate.
- The async admission check `check` is embedded as a function returning the
  ordered trace of limiter categories it awaited (`until_ready().await`)
  together with its `Ok(())` result; absence of a wait on a category means
  the corresponding step was skipped.
-/

namespace RateLimit

/-- Rust `&str` values, embedded as lists of characters. -/
abbrev Str := List Char

/-- Coerce a Lean string literal to the embedded string type. -/
def str (s : String) : Str := s.data

/-- Rust `str::starts_with`: `startsWith s pre` is true when `pre` is a
prefix of `s`. -/
def startsWith (s pre : Str) : Bool := pre.isPrefixOf s

/-- Rust `str::contains`: `containsSub hay needle` is true when `needle`
occurs as a contiguous substring of `hay`. -/
def containsSub (hay needle : Str) : Bool :=
  match hay with
  | [] => needle.isEmpty
  | _ :: t => needle.isPrefixOf hay || containsSub t needle

/-- `governor::Quota`, from the governor crate's documented API: a maximum
burst size together with the interval (here in nanoseconds) in which one
cell is replenished. -/
structure Quota where
  max_burst : Nat
  replenish_1_per_ns : Nat
deriving DecidableEq, Repr

/-- `governor::Quota::with_period`: a quota that replenishes one cell per
given interval, with a burst of 1; fails on a zero interval. -/
def Quota.with_period (ns : Nat) : Option Quota :=
  if ns = 0 then none else some ⟨1, ns⟩

/-- `governor::Quota::allow_burst`: adjusts the maximum burst size only;
the replenish interval is unchanged. -/
def Quota.allow_burst (q : Quota) (n : Nat) : Quota :=
  ⟨n, q.replenish_1_per_ns⟩

/-- `governor::Quota::per_minute`: replenishes `n` cells per minute (one
cell per `60s / n`), with a burst of `n`. -/
def Quota.per_minute (n : Nat) : Quota :=
  ⟨n, 60000000000 / n⟩

/-- Number of tokens a quota's continuous refill grants over a window of
`windowNs` nanoseconds: one token per `replenish_1_per_ns`. -/
def sustainedTokensPer (windowNs : Nat) (q : Quota) : Nat :=
  windowNs / q.replenish_1_per_ns

/-- `MultiWindowQuota` from `rate_limit.rs`: a short-term burst quota paired
with a longer sustained quota. -/
structure MultiWindowQuota where
  burst : Quota
  sustained : Quota
deriving DecidableEq, Repr

/-- `Config` from `rate_limit.rs`: one optional quota (or multi-window
quota) per recognized category; `none` disables the category's limiter. -/
structure Config where
  global_limit : Option Quota
  clob_general : Option Quota
  clob_book : Option Quota
  clob_price : Option Quota
  clob_midpoint : Option Quota
  clob_post_order : Option MultiWindowQuota
  clob_delete_order : Option MultiWindowQuota
  clob_submit : Option Quota
  clob_user_pnl : Option Quota
  gamma_general : Option Quota
  gamma_events : Option Quota
  gamma_markets : Option Quota
  gamma_markets_events : Option Quota
  gamma_comments : Option Quota
  gamma_tags : Option Quota
  gamma_search : Option Quota
  data_general : Option Quota
  data_trades : Option Quota
  data_positions : Option Quota
  data_closed_positions : Option Quota
  bridge_general : Option Quota
deriving DecidableEq, Repr

/-- The `per_ten_seconds` closure of `Config::default`:
`Quota::with_period(Duration::from_secs(10)).allow_burst(count)`.
The Rust code unwraps the `with_period` result with `expect`; since the
period is the non-zero constant 10s the option is always `some`, and we keep
the composition in `Option` so the `Some(...)` wrapping of the config field
absorbs it. -/
def per_ten_seconds (count : Nat) : Option Quota :=
  (Quota.with_period 10000000000).map (fun q => q.allow_burst count)

/-- The `per_ten_minutes` closure of `Config::default`:
`Quota::with_period(Duration::from_secs(600)).allow_burst(count)`. -/
def per_ten_minutes (count : Nat) : Option Quota :=
  (Quota.with_period 600000000000).map (fun q => q.allow_burst count)

/-- `impl Default for Config` from `rate_limit.rs`. -/
def Config.default : Config where
  global_limit := per_ten_seconds 15000
  clob_general := per_ten_seconds 9000
  clob_book := per_ten_seconds 1500
  clob_price := per_ten_seconds 1500
  clob_midpoint := per_ten_seconds 1500
  clob_post_order :=
    (per_ten_seconds 3500).bind (fun b =>
      (per_ten_minutes 36000).map (fun s => ⟨b, s⟩))
  clob_delete_order :=
    (per_ten_seconds 3000).bind (fun b =>
      (per_ten_minutes 30000).map (fun s => ⟨b, s⟩))
  clob_submit := some (Quota.per_minute 25)
  clob_user_pnl := per_ten_seconds 200
  gamma_general := per_ten_seconds 4000
  gamma_events := per_ten_seconds 500
  gamma_markets := per_ten_seconds 300
  gamma_markets_events := per_ten_seconds 900
  gamma_comments := per_ten_seconds 200
  gamma_tags := per_ten_seconds 200
  gamma_search := per_ten_seconds 350
  data_general := per_ten_seconds 1000
  data_trades := per_ten_seconds 200
  data_positions := per_ten_seconds 150
  data_closed_positions := per_ten_seconds 150
  bridge_general := none

/-- `Config::disabled` from `rate_limit.rs`: every category set to `none`. -/
def Config.disabled : Config where
  global_limit := none
  clob_general := none
  clob_book := none
  clob_price := none
  clob_midpoint := none
  clob_post_order := none
  clob_delete_order := none
  clob_submit := none
  clob_user_pnl := none
  gamma_general := none
  gamma_events := none
  gamma_markets := none
  gamma_markets_events := none
  gamma_comments := none
  gamma_tags := none
  gamma_search := none
  data_general := none
  data_trades := none
  data_positions := none
  data_closed_positions := none
  bridge_general := none

/-- A limiter instance (`Arc<RateLimiter<...>>` built by
`RateLimiter::direct(quota)`), embedded as the quota it was built from;
the claims below depend only on which limiters exist. -/
abbrev Limiter := Quota

/-- `RateLimiters` from `rate_limit.rs`: one optional limiter per category,
with multi-window categories split into burst and sustained instances. -/
structure RateLimiters where
  global : Option Limiter
  clob_general : Option Limiter
  clob_book : Option Limiter
  clob_price : Option Limiter
  clob_midpoint : Option Limiter
  clob_post_order_burst : Option Limiter
  clob_post_order_sustained : Option Limiter
  clob_delete_order_burst : Option Limiter
  clob_delete_order_sustained : Option Limiter
  clob_submit : Option Limiter
  clob_user_pnl : Option Limiter
  gamma_general : Option Limiter
  gamma_events : Option Limiter
  gamma_markets : Option Limiter
  gamma_markets_events : Option Limiter
  gamma_comments : Option Limiter
  gamma_tags : Option Limiter
  gamma_search : Option Limiter
  data_general : Option Limiter
  data_trades : Option Limiter
  data_positions : Option Limiter
  data_closed_positions : Option Limiter
  bridge_general : Option Limiter
deriving DecidableEq, Repr

/-- `RateLimiters::new` from `rate_limit.rs`: one limiter per present quota
(`config.field.map(|q| Arc::new(RateLimiter::direct(q)))`), with each
multi-window quota producing a burst limiter and a sustained limiter. -/
def RateLimiters.new (config : Config) : RateLimiters where
  global := config.global_limit.map (fun q => q)
  clob_general := config.clob_general.map (fun q => q)
  clob_book := config.clob_book.map (fun q => q)
  clob_price := config.clob_price.map (fun q => q)
  clob_midpoint := config.clob_midpoint.map (fun q => q)
  clob_post_order_burst := config.clob_post_order.map (fun mq => mq.burst)
  clob_post_order_sustained := config.clob_post_order.map (fun mq => mq.sustained)
  clob_delete_order_burst := config.clob_delete_order.map (fun mq => mq.burst)
  clob_delete_order_sustained := config.clob_delete_order.map (fun mq => mq.sustained)
  clob_submit := config.clob_submit.map (fun q => q)
  clob_user_pnl := config.clob_user_pnl.map (fun q => q)
  gamma_general := config.gamma_general.map (fun q => q)
  gamma_events := config.gamma_events.map (fun q => q)
  gamma_markets := config.gamma_markets.map (fun q => q)
  gamma_markets_events := config.gamma_markets_events.map (fun q => q)
  gamma_comments := config.gamma_comments.map (fun q => q)
  gamma_tags := config.gamma_tags.map (fun q => q)
  gamma_search := config.gamma_search.map (fun q => q)
  data_general := config.data_general.map (fun q => q)
  data_trades := config.data_trades.map (fun q => q)
  data_positions := config.data_positions.map (fun q => q)
  data_closed_positions := config.data_closed_positions.map (fun q => q)
  bridge_general := config.bridge_general.map (fun q => q)

/-- `ApiType` from `rate_limit.rs`. -/
inductive ApiType where
  | Clob
  | Gamma
  | Data
  | Bridge
  | Unknown
deriving DecidableEq, Repr, Fintype

/-- `Endpoint` from `rate_limit.rs`. -/
inductive Endpoint where
  | ClobBook
  | ClobPrice
  | ClobMidpoint
  | ClobPostOrder
  | ClobDeleteOrder
  | ClobSubmit
  | ClobUserPnl
  | ClobGeneral
  | GammaEvents
  | GammaMarkets
  | GammaMarketsEvents
  | GammaComments
  | GammaTags
  | GammaSearch
  | GammaGeneral
  | DataTrades
  | DataPositions
  | DataClosedPositions
  | DataGeneral
  | BridgeGeneral
  | Unknown
deriving DecidableEq, Repr, Fintype

/-- A request URL as consumed by `detect_endpoint`: `reqwest::Url::host_str`
(`none` for URLs without a host) and `Url::path` (the path without query). -/
structure Url where
  host : Option Str
  path : Str

/-- The API-type detection of `detect_endpoint` (`rate_limit.rs` lines
456-474): the chain of host-containment tests, each production hostname
test disjoined with a localhost-containment-plus-path-prefix test. -/
def apiOf (host path : Str) : ApiType :=
  if containsSub host (str "clob.polymarket.com")
      || (containsSub host (str "localhost") && startsWith path (str "/clob")) then
    ApiType.Clob
  else if containsSub host (str "gamma-api.polymarket.com")
      || (containsSub host (str "localhost") && startsWith path (str "/gamma")) then
    ApiType.Gamma
  else if containsSub host (str "data-api.polymarket.com")
      || (containsSub host (str "localhost") && startsWith path (str "/data")) then
    ApiType.Data
  else if containsSub host (str "bridge.polymarket.com")
      || (containsSub host (str "localhost") && startsWith path (str "/bridge")) then
    ApiType.Bridge
  else
    ApiType.Unknown

/-- The endpoint detection of `detect_endpoint` (`rate_limit.rs` lines
477-518): the Rust `match (api_type, method.as_str(), path)` grouped by API
type.  Each API's rows are kept in source order (first match wins), and each
API's block ends with its wildcard row, so grouping by the already-matched
`api_type` is behaviour-preserving. -/
def endpoint_of (api_type : ApiType) (method path : Str) : Endpoint :=
  match api_type with
  | ApiType.Clob =>
    if method == str "GET" && startsWith path (str "/book") then
      Endpoint.ClobBook
    else if method == str "GET" &&
        (startsWith path (str "/price") && !startsWith path (str "/prices")) then
      Endpoint.ClobPrice
    else if method == str "GET" && startsWith path (str "/midpoint") then
      Endpoint.ClobMidpoint
    else if method == str "POST" && (path == str "/order" || path == str "/orders") then
      Endpoint.ClobPostOrder
    else if method == str "DELETE" && startsWith path (str "/order") then
      Endpoint.ClobDeleteOrder
    else if method == str "POST" && path == str "/submit" then
      Endpoint.ClobSubmit
    else if containsSub path (str "rewards") && containsSub path (str "user") then
      Endpoint.ClobUserPnl
    else
      Endpoint.ClobGeneral
  | ApiType.Gamma =>
    if method == str "GET" && startsWith path (str "/events") then
      Endpoint.GammaEvents
    else if method == str "GET" && startsWith path (str "/markets") then
      if containsSub path (str "/events") then
        Endpoint.GammaMarketsEvents
      else
        Endpoint.GammaMarkets
    else if method == str "GET" && startsWith path (str "/comments") then
      Endpoint.GammaComments
    else if method == str "GET" && startsWith path (str "/tags") then
      Endpoint.GammaTags
    else if method == str "GET" && (path == str "/public-search" || path == str "/search") then
      Endpoint.GammaSearch
    else
      Endpoint.GammaGeneral
  | ApiType.Data =>
    if method == str "GET" && path == str "/trades" then
      Endpoint.DataTrades
    else if method == str "GET" && path == str "/positions" then
      Endpoint.DataPositions
    else if method == str "GET" && path == str "/closed-positions" then
      Endpoint.DataClosedPositions
    else
      Endpoint.DataGeneral
  | ApiType.Bridge => Endpoint.BridgeGeneral
  | ApiType.Unknown => Endpoint.Unknown

/-- `detect_endpoint` from `rate_limit.rs`: take the host (empty when the
URL has none, as in `url.host_str().unwrap_or("")`) and the path, detect
the API type, then the endpoint. -/
def detect_endpoint (url : Url) (method : Str) : ApiType × Endpoint :=
  let host := url.host.getD []
  let path := url.path
  let api_type := apiOf host path
  (api_type, endpoint_of api_type method path)

/-- The registry categories a request can be made to wait on, one per
`RateLimiters` field. -/
inductive Cat where
  | global
  | clobGeneral
  | clobBook
  | clobPrice
  | clobMidpoint
  | clobPostOrderBurst
  | clobPostOrderSustained
  | clobDeleteOrderBurst
  | clobDeleteOrderSustained
  | clobSubmit
  | clobUserPnl
  | gammaGeneral
  | gammaEvents
  | gammaMarkets
  | gammaMarketsEvents
  | gammaComments
  | gammaTags
  | gammaSearch
  | dataGeneral
  | dataTrades
  | dataPositions
  | dataClosedPositions
  | bridgeGeneral
deriving DecidableEq, Repr, Fintype

/-- One `if let Some(limiter) = l { limiter.until_ready().await }` step of
`check`: the trace of categories awaited (one wait when the limiter is
present, none when it is absent). -/
def waitOpt (l : Option Limiter) (c : Cat) : List Cat :=
  if l.isSome then [c] else []

/-- The endpoint-specific part of `check` (`rate_limit.rs` lines 545-635):
the `match endpoint` whose arms await the endpoint's limiter(s); for
multi-window endpoints the burst limiter is awaited and then the sustained
limiter; the wildcard arm awaits nothing. -/
def endpointStep (limiters : RateLimiters) (endpoint : Endpoint) : List Cat :=
  match endpoint with
  | Endpoint.ClobBook => waitOpt limiters.clob_book Cat.clobBook
  | Endpoint.ClobPrice => waitOpt limiters.clob_price Cat.clobPrice
  | Endpoint.ClobMidpoint => waitOpt limiters.clob_midpoint Cat.clobMidpoint
  | Endpoint.ClobPostOrder =>
      waitOpt limiters.clob_post_order_burst Cat.clobPostOrderBurst ++
        waitOpt limiters.clob_post_order_sustained Cat.clobPostOrderSustained
  | Endpoint.ClobDeleteOrder =>
      waitOpt limiters.clob_delete_order_burst Cat.clobDeleteOrderBurst ++
        waitOpt limiters.clob_delete_order_sustained Cat.clobDeleteOrderSustained
  | Endpoint.ClobSubmit => waitOpt limiters.clob_submit Cat.clobSubmit
  | Endpoint.ClobUserPnl => waitOpt limiters.clob_user_pnl Cat.clobUserPnl
  | Endpoint.GammaEvents => waitOpt limiters.gamma_events Cat.gammaEvents
  | Endpoint.GammaMarkets => waitOpt limiters.gamma_markets Cat.gammaMarkets
  | Endpoint.GammaMarketsEvents =>
      waitOpt limiters.gamma_markets_events Cat.gammaMarketsEvents
  | Endpoint.GammaComments => waitOpt limiters.gamma_comments Cat.gammaComments
  | Endpoint.GammaTags => waitOpt limiters.gamma_tags Cat.gammaTags
  | Endpoint.GammaSearch => waitOpt limiters.gamma_search Cat.gammaSearch
  | Endpoint.DataTrades => waitOpt limiters.data_trades Cat.dataTrades
  | Endpoint.DataPositions => waitOpt limiters.data_positions Cat.dataPositions
  | Endpoint.DataClosedPositions =>
      waitOpt limiters.data_closed_positions Cat.dataClosedPositions
  | _ => []

/-- The API-general part of `check` (`rate_limit.rs` lines 638-648): select
the general limiter by API type (`Unknown` selects `&None`) and await it
when present. -/
def generalStep (limiters : RateLimiters) (api_type : ApiType) : List Cat :=
  match api_type with
  | ApiType.Clob => waitOpt limiters.clob_general Cat.clobGeneral
  | ApiType.Gamma => waitOpt limiters.gamma_general Cat.gammaGeneral
  | ApiType.Data => waitOpt limiters.data_general Cat.dataGeneral
  | ApiType.Bridge => waitOpt limiters.bridge_general Cat.bridgeGeneral
  | ApiType.Unknown => []

/-- `crate::Error` as far as this module is concerned: `check` never
constructs an error, so no constructor is needed. -/
inductive Error
deriving DecidableEq

/-- `check` from `rate_limit.rs` (lines 539-656): await the
endpoint-specific limiter(s), then the API-general limiter, then the global
limiter, and return `Ok(())`.  The embedding returns the ordered trace of
categories awaited inside the `Ok`. -/
def check (limiters : RateLimiters) (api_type : ApiType) (endpoint : Endpoint) :
    Except Error (List Cat) :=
  Except.ok
    (endpointStep limiters endpoint ++ generalStep limiters api_type ++
      waitOpt limiters.global Cat.global)

/-!
Specification-side definitions.  These follow the wording of the
natural-language specification (and the amended wording of corrected
claims), to be compared with the embedded definitions above.
-/

/-- An ordered rule list evaluated top-to-bottom, first match wins, with a
fallback when no rule matches (spec §4.4: "apply an ordered list of
(method, path-pattern) rules, first match wins"). -/
def firstMatch (rules : List ((Str → Str → Bool) × Endpoint)) (fallback : Endpoint)
    (method path : Str) : Endpoint :=
  match rules with
  | [] => fallback
  | (cond, e) :: rest =>
      if cond method path then e else firstMatch rest fallback method path

/-- The CLOB rule list as the claim states it, in order: GET `/book*`;
GET `/price*` but not `/prices*`; GET `/midpoint*`; POST exactly `/order`
or `/orders`; DELETE `/order*`; POST exactly `/submit`; any method whose
path contains both `rewards` and `user`. -/
def clobSpecRules : List ((Str → Str → Bool) × Endpoint) :=
  [ (fun m p => m == str "GET" && startsWith p (str "/book"), Endpoint.ClobBook),
    (fun m p => m == str "GET" &&
        (startsWith p (str "/price") && !startsWith p (str "/prices")), Endpoint.ClobPrice),
    (fun m p => m == str "GET" && startsWith p (str "/midpoint"), Endpoint.ClobMidpoint),
    (fun m p => m == str "POST" && (p == str "/order" || p == str "/orders"),
      Endpoint.ClobPostOrder),
    (fun m p => m == str "DELETE" && startsWith p (str "/order"), Endpoint.ClobDeleteOrder),
    (fun m p => m == str "POST" && p == str "/submit", Endpoint.ClobSubmit),
    (fun _ p => containsSub p (str "rewards") && containsSub p (str "user"),
      Endpoint.ClobUserPnl) ]

/-- API detection as amended for claim C3: substring containment of a
production hostname in the request host, or containment of `localhost`
together with the API's path prefix, tested in the order clob, gamma, data,
bridge; any other host yields `Unknown`. -/
def apiSpecAmended (host path : Str) : ApiType :=
  if containsSub host (str "clob.polymarket.com")
      || (containsSub host (str "localhost") && startsWith path (str "/clob")) then
    ApiType.Clob
  else if containsSub host (str "gamma-api.polymarket.com")
      || (containsSub host (str "localhost") && startsWith path (str "/gamma")) then
    ApiType.Gamma
  else if containsSub host (str "data-api.polymarket.com")
      || (containsSub host (str "localhost") && startsWith path (str "/data")) then
    ApiType.Data
  else if containsSub host (str "bridge.polymarket.com")
      || (containsSub host (str "localhost") && startsWith path (str "/bridge")) then
    ApiType.Bridge
  else
    ApiType.Unknown

/-- The endpoint-specific limiter(s) of each endpoint with their categories,
burst before sustained for the multi-window endpoints, and none for the
general/bridge/unknown endpoints (claim C6's "endpoint-specific
limiter(s)"). -/
def specificLimiters (limiters : RateLimiters) (endpoint : Endpoint) :
    List (Option Limiter × Cat) :=
  match endpoint with
  | Endpoint.ClobBook => [(limiters.clob_book, Cat.clobBook)]
  | Endpoint.ClobPrice => [(limiters.clob_price, Cat.clobPrice)]
  | Endpoint.ClobMidpoint => [(limiters.clob_midpoint, Cat.clobMidpoint)]
  | Endpoint.ClobPostOrder =>
      [(limiters.clob_post_order_burst, Cat.clobPostOrderBurst),
       (limiters.clob_post_order_sustained, Cat.clobPostOrderSustained)]
  | Endpoint.ClobDeleteOrder =>
      [(limiters.clob_delete_order_burst, Cat.clobDeleteOrderBurst),
       (limiters.clob_delete_order_sustained, Cat.clobDeleteOrderSustained)]
  | Endpoint.ClobSubmit => [(limiters.clob_submit, Cat.clobSubmit)]
  | Endpoint.ClobUserPnl => [(limiters.clob_user_pnl, Cat.clobUserPnl)]
  | Endpoint.GammaEvents => [(limiters.gamma_events, Cat.gammaEvents)]
  | Endpoint.GammaMarkets => [(limiters.gamma_markets, Cat.gammaMarkets)]
  | Endpoint.GammaMarketsEvents => [(limiters.gamma_markets_events, Cat.gammaMarketsEvents)]
  | Endpoint.GammaComments => [(limiters.gamma_comments, Cat.gammaComments)]
  | Endpoint.GammaTags => [(limiters.gamma_tags, Cat.gammaTags)]
  | Endpoint.GammaSearch => [(limiters.gamma_search, Cat.gammaSearch)]
  | Endpoint.DataTrades => [(limiters.data_trades, Cat.dataTrades)]
  | Endpoint.DataPositions => [(limiters.data_positions, Cat.dataPositions)]
  | Endpoint.DataClosedPositions =>
      [(limiters.data_closed_positions, Cat.dataClosedPositions)]
  | Endpoint.ClobGeneral => []
  | Endpoint.GammaGeneral => []
  | Endpoint.DataGeneral => []
  | Endpoint.BridgeGeneral => []
  | Endpoint.Unknown => []

/-- The API-general limiter of each API type with its category; `Unknown`
has none (claim C6's "ApiType::Unknown consults no API-general limiter"). -/
def apiGeneralLimiter (limiters : RateLimiters) (api_type : ApiType) :
    List (Option Limiter × Cat) :=
  match api_type with
  | ApiType.Clob => [(limiters.clob_general, Cat.clobGeneral)]
  | ApiType.Gamma => [(limiters.gamma_general, Cat.gammaGeneral)]
  | ApiType.Data => [(limiters.data_general, Cat.dataGeneral)]
  | ApiType.Bridge => [(limiters.bridge_general, Cat.bridgeGeneral)]
  | ApiType.Unknown => []

/-- Consult a sequence of optional limiters in order, skipping each step
entirely when its limiter is absent. -/
def consulted : List (Option Limiter × Cat) → List Cat
  | [] => []
  | (l, c) :: rest => (if l.isSome then [c] else []) ++ consulted rest

/-- The consultation order claim C6 states: endpoint-specific limiter(s)
first (burst then sustained), then the API-general limiter, then the global
limiter, each skipped when absent. -/
def checkOrderSpec (limiters : RateLimiters) (api_type : ApiType) (endpoint : Endpoint) :
    List Cat :=
  consulted
    (specificLimiters limiters endpoint ++ apiGeneralLimiter limiters api_type ++
      [(limiters.global, Cat.global)])

/-!
Theorems for the claims.
-/

/-- C1: the claim states that every category in the §4.2 table gets a token
bucket of the listed capacity whose refill grants `capacity` tokens per the
listed period (e.g. the global bucket 15000 tokens per 10 s sustained).
The code instead builds each bucket with
`Quota::with_period(period).allow_burst(capacity)`, which replenishes one
token per `period`: the global bucket has capacity 15000 but its refill
grants 1 token per 10 s, and the clob-post-order sustained bucket grants
1 token per 600 s instead of 36000.  Only `clob_submit`, built with
`Quota::per_minute(25)`, actually grants its listed 25 tokens per 60 s.
This contradicts the module's own doc comments ("General: 9,000
requests/10s", "36,000 requests/10 minutes sustained"). -/
theorem default_config_refills_one_token_per_period :
    Config.default.global_limit = some ⟨15000, 10000000000⟩ ∧
    Config.default.global_limit.map (sustainedTokensPer 10000000000) = some 1 ∧
    Config.default.clob_post_order.map
      (fun mq => sustainedTokensPer 600000000000 mq.sustained) = some 1 ∧
    Config.default.clob_general.map (sustainedTokensPer 10000000000) = some 1 ∧
    Config.default.clob_submit.map (sustainedTokensPer 60000000000) = some 25 := by
  decide

/-- C2 counterexample: the claim asserts that the general limiter of every
API — Bridge included — is present in `RateLimiters::new(Config::default())`;
in fact `Config::default` sets `bridge_general` to `None` (the §4.2 table
row "bridge-general: unlimited (no quota)"), so the bridge general limiter
is absent. -/
theorem default_bridge_general_limiter_absent :
    (RateLimiters.new Config.default).bridge_general = none := by
  decide

/-- C2 amended: `RateLimiters::new(Config::default())` yields a registry in
which the global limiter, the general limiters of Clob, Gamma and Data, and
every named sub-endpoint category's limiter (burst and sustained instances
included) are present, while the Bridge general limiter is absent,
matching the §4.2 table. -/
theorem default_registry_presence :
    ((RateLimiters.new Config.default).global).isSome = true ∧
    ((RateLimiters.new Config.default).clob_general).isSome = true ∧
    ((RateLimiters.new Config.default).clob_book).isSome = true ∧
    ((RateLimiters.new Config.default).clob_price).isSome = true ∧
    ((RateLimiters.new Config.default).clob_midpoint).isSome = true ∧
    ((RateLimiters.new Config.default).clob_post_order_burst).isSome = true ∧
    ((RateLimiters.new Config.default).clob_post_order_sustained).isSome = true ∧
    ((RateLimiters.new Config.default).clob_delete_order_burst).isSome = true ∧
    ((RateLimiters.new Config.default).clob_delete_order_sustained).isSome = true ∧
    ((RateLimiters.new Config.default).clob_submit).isSome = true ∧
    ((RateLimiters.new Config.default).clob_user_pnl).isSome = true ∧
    ((RateLimiters.new Config.default).gamma_general).isSome = true ∧
    ((RateLimiters.new Config.default).gamma_events).isSome = true ∧
    ((RateLimiters.new Config.default).gamma_markets).isSome = true ∧
    ((RateLimiters.new Config.default).gamma_markets_events).isSome = true ∧
    ((RateLimiters.new Config.default).gamma_comments).isSome = true ∧
    ((RateLimiters.new Config.default).gamma_tags).isSome = true ∧
    ((RateLimiters.new Config.default).gamma_search).isSome = true ∧
    ((RateLimiters.new Config.default).data_general).isSome = true ∧
    ((RateLimiters.new Config.default).data_trades).isSome = true ∧
    ((RateLimiters.new Config.default).data_positions).isSome = true ∧
    ((RateLimiters.new Config.default).data_closed_positions).isSome = true ∧
    (RateLimiters.new Config.default).bridge_general = none := by
  decide

/-- C3 counterexample: the claim states the ApiType is chosen by exact
match of the host against the production hostnames, every other
(non-local) host yielding `ApiType::Unknown`.  The host
`xclob.polymarket.com` is not one of the production hostnames and is not a
local host, yet `detect_endpoint` classifies it as Clob, because the code
tests `host.contains("clob.polymarket.com")` — substring containment, not
exact match. -/
theorem api_detection_substring_counterexample :
    (detect_endpoint ⟨some (str "xclob.polymarket.com"), str "/foo"⟩ (str "GET")).1 =
      ApiType.Clob ∧
    ApiType.Clob ≠ ApiType.Unknown := by
  decide

/-- C3 amended: for every URL and method, `detect_endpoint` chooses the
ApiType by substring containment of the known production hostnames
(clob.polymarket.com, gamma-api.polymarket.com, data-api.polymarket.com,
bridge.polymarket.com) in the request host, or, for hosts containing
`localhost`, by the path prefix `/clob`, `/gamma`, `/data` or `/bridge`,
tested in that order; every host matching none of these yields
`ApiType::Unknown`. -/
theorem api_detection_by_containment :
    ∀ (url : Url) (method : Str),
      (detect_endpoint url method).1 = apiSpecAmended (url.host.getD []) url.path :=
  fun _ _ => rfl

/-- C4: for every URL classified as Gamma and method GET, a path starting
with `/markets` that also contains `/events` classifies as
GammaMarketsEvents, and one without `/events` as GammaMarkets; in
particular GET gamma-api.polymarket.com/markets/123/events yields
(Gamma, GammaMarketsEvents). -/
theorem gamma_markets_events_precedence :
    (∀ p : Str, startsWith p (str "/markets") = true →
      endpoint_of ApiType.Gamma (str "GET") p =
        (if containsSub p (str "/events") then Endpoint.GammaMarketsEvents
         else Endpoint.GammaMarkets)) ∧
    detect_endpoint ⟨some (str "gamma-api.polymarket.com"), str "/markets/123/events"⟩
        (str "GET") =
      (ApiType.Gamma, Endpoint.GammaMarketsEvents) := by
  constructor
  · intro p h
    rw [startsWith, List.isPrefixOf_iff_prefix] at h
    obtain ⟨t, ht⟩ := h
    subst ht
    simp [endpoint_of, startsWith, str, containsSub, List.isPrefixOf, beq_iff_eq]
  · decide

/-- Witness for C4: the `/markets` rule applied at the concrete paths
`/markets/42` (no `/events`) evaluates to GammaMarkets. -/
theorem gamma_markets_events_precedence_witness :
    startsWith (str "/markets/42") (str "/markets") = true ∧
    endpoint_of ApiType.Gamma (str "GET") (str "/markets/42") = Endpoint.GammaMarkets :=
  ⟨by decide,
    (gamma_markets_events_precedence.1 (str "/markets/42") (by decide)).trans (by decide)⟩

/-- C5: for every method and path, the CLOB endpoint detection equals the
ordered rule list stated by the claim, evaluated top-to-bottom with first
match winning and ClobGeneral as the fallback. -/
theorem clob_rules_first_match :
    ∀ method path,
      endpoint_of ApiType.Clob method path =
        firstMatch clobSpecRules Endpoint.ClobGeneral method path := by
  intro method path
  simp [endpoint_of, firstMatch, clobSpecRules]

/-- C6: for every registry, ApiType and Endpoint, `check` consults limiters
in the fixed order: the endpoint-specific limiter(s) (burst then sustained
for the multi-window endpoints), then the API-general limiter selected by
the ApiType (none for Unknown), then the global limiter, each step skipped
entirely when its limiter is absent. -/
theorem check_consultation_order :
    ∀ (limiters : RateLimiters) (api_type : ApiType) (endpoint : Endpoint),
      check limiters api_type endpoint =
        Except.ok (checkOrderSpec limiters api_type endpoint) := by
  intro limiters api_type endpoint
  cases endpoint <;> cases api_type <;>
    simp [check, endpointStep, generalStep, waitOpt, checkOrderSpec, specificLimiters,
      apiGeneralLimiter, consulted]

/-- C7: `Config::disabled` sets every category to `None`, the registry
built from it has no limiter in any slot, and `check` on that registry
awaits no limiter at all (empty wait trace) and returns `Ok` for every
ApiType and Endpoint. -/
theorem disabled_config_no_limiters_no_waits :
    (RateLimiters.new Config.disabled).global = none ∧
    (RateLimiters.new Config.disabled).clob_general = none ∧
    (RateLimiters.new Config.disabled).clob_book = none ∧
    (RateLimiters.new Config.disabled).clob_price = none ∧
    (RateLimiters.new Config.disabled).clob_midpoint = none ∧
    (RateLimiters.new Config.disabled).clob_post_order_burst = none ∧
    (RateLimiters.new Config.disabled).clob_post_order_sustained = none ∧
    (RateLimiters.new Config.disabled).clob_delete_order_burst = none ∧
    (RateLimiters.new Config.disabled).clob_delete_order_sustained = none ∧
    (RateLimiters.new Config.disabled).clob_submit = none ∧
    (RateLimiters.new Config.disabled).clob_user_pnl = none ∧
    (RateLimiters.new Config.disabled).gamma_general = none ∧
    (RateLimiters.new Config.disabled).gamma_events = none ∧
    (RateLimiters.new Config.disabled).gamma_markets = none ∧
    (RateLimiters.new Config.disabled).gamma_markets_events = none ∧
    (RateLimiters.new Config.disabled).gamma_comments = none ∧
    (RateLimiters.new Config.disabled).gamma_tags = none ∧
    (RateLimiters.new Config.disabled).gamma_search = none ∧
    (RateLimiters.new Config.disabled).data_general = none ∧
    (RateLimiters.new Config.disabled).data_trades = none ∧
    (RateLimiters.new Config.disabled).data_positions = none ∧
    (RateLimiters.new Config.disabled).data_closed_positions = none ∧
    (RateLimiters.new Config.disabled).bridge_general = none ∧
    (∀ (api_type : ApiType) (endpoint : Endpoint),
      check (RateLimiters.new Config.disabled) api_type endpoint = Except.ok []) := by
  refine ⟨rfl, rfl, rfl, rfl, rfl, rfl, rfl, rfl, rfl, rfl, rfl, rfl, rfl, rfl, rfl,
    rfl, rfl, rfl, rfl, rfl, rfl, rfl, rfl, ?_⟩
  intro api_type endpoint
  cases api_type <;> cases endpoint <;> rfl

/-- C8: for every registry, ApiType and Endpoint, `check` returns success;
it has no error or denial path — it can only make the caller wait. -/
theorem check_never_denies :
    ∀ (limiters : RateLimiters) (api_type : ApiType) (endpoint : Endpoint),
      (check limiters api_type endpoint).isOk = true :=
  fun _ _ _ => rfl

/-- C10: for a GET request to host `localhost` with a path starting with
`/clob`, the endpoint rules are tested against the full path including the
`/clob` prefix, so no CLOB prefix rule can match and the result is
(Clob, ClobGeneral) — unless the path contains both `rewards` and `user`,
in which case it is (Clob, ClobUserPnl). -/
theorem localhost_clob_full_path_rules :
    ∀ p : Str, startsWith p (str "/clob") = true →
      detect_endpoint ⟨some (str "localhost"), p⟩ (str "GET") =
        (ApiType.Clob,
          if containsSub p (str "rewards") && containsSub p (str "user")
          then Endpoint.ClobUserPnl else Endpoint.ClobGeneral) := by
  intro p h
  rw [startsWith, List.isPrefixOf_iff_prefix] at h
  obtain ⟨t, ht⟩ := h
  subst ht
  simp [detect_endpoint, apiOf, endpoint_of, startsWith, str, containsSub,
    List.isPrefixOf, beq_iff_eq]

/-- Witness for C10: GET http://localhost/clob/book classifies as
(Clob, ClobGeneral), not (Clob, ClobBook). -/
theorem localhost_clob_full_path_rules_witness :
    startsWith (str "/clob/book") (str "/clob") = true ∧
    detect_endpoint ⟨some (str "localhost"), str "/clob/book"⟩ (str "GET") =
      (ApiType.Clob, Endpoint.ClobGeneral) :=
  ⟨by decide,
    (localhost_clob_full_path_rules (str "/clob/book") (by decide)).trans (by decide)⟩

end RateLimit
